import Mathlib

/-!
Verification development for `src/b12_submit.py`: a single-file CI helper that
builds a canonical JSON submission record, signs it with HMAC-SHA256, POSTs it
to a fixed endpoint, and validates the response.

The Python source is shallowly embedded below:
* strings are Lean `String` (Python `str` is a sequence of Unicode scalars,
  as is `String.data`), byte strings are `List Nat` with every element `< 256`;
* `os.getenv` is modelled as an oracle `env : String → Option String`;
* the network call (`urllib.request.urlopen`) is an oracle
  `transport : HttpRequest → TransportResult`; `json.loads` is an oracle
  `parse : String → Option JVal` returning `none` on `JSONDecodeError`;
* `raise SystemExit msg` is `RunResult.failure msg` (exit code 1),
  an uncaught Python exception is `RunResult.crash` (also exit code 1),
  and the success path `print(receipt)` is `RunResult.success line`.
-/

/-- Whitespace characters relevant to JSON inter-token whitespace. -/
def isWsChar (c : Char) : Bool :=
  c = ' ' || c = '\t' || c = '\n' || c = '\r'

/-- String contains a whitespace character. -/
def hasWsStr (s : String) : Bool := s.data.any isWsChar

/-- Lowercase hexadecimal digit for a nibble, as produced by CPython's
hex formatting (`%x`, `hexdigest`). -/
def hexDigit (n : Nat) : Char :=
  if n < 10 then Char.ofNat (48 + n) else Char.ofNat (87 + n)

/-- Lowercase hex digit characters: 0-9 or a-f. -/
def isLowerHexChar (c : Char) : Bool :=
  (48 ≤ c.toNat && c.toNat ≤ 57) || (97 ≤ c.toNat && c.toNat ≤ 102)

/-- CPython `json` short escape `\uXXXX` (lowercase hex) for a code point. -/
def uEscape (n : Nat) : List Char :=
  ['\\', 'u', hexDigit (n / 4096 % 16), hexDigit (n / 256 % 16),
   hexDigit (n / 16 % 16), hexDigit (n % 16)]

/-- Embeds the per-character behaviour of CPython
`json.dumps(..., ensure_ascii=False)` (`c_encode_basestring`, the
`ESCAPE_DCT` table): `"` and backslash are escaped, the C0 control characters
get their two-character escapes or `\uXXXX`, and every other character —
including every non-ASCII character — is emitted literally. -/
def jsonEscapeChar (c : Char) : List Char :=
  if c = '"' then ['\\', '"']
  else if c = '\\' then ['\\', '\\']
  else if c = '\n' then ['\\', 'n']
  else if c = '\r' then ['\\', 'r']
  else if c = '\t' then ['\\', 't']
  else if c = Char.ofNat 8 then ['\\', 'b']
  else if c = Char.ofNat 12 then ['\\', 'f']
  else if c.toNat < 32 then uEscape c.toNat
  else [c]

/-- A JSON string literal as rendered by `json.dumps(..., ensure_ascii=False)`:
a double-quoted, escaped rendering of the string. -/
def jsonNameQuote (s : String) : String :=
  "\"" ++ String.mk (s.data.flatMap jsonEscapeChar) ++ "\""

/-- UTF-8 encoding of one Unicode scalar value, as in `str.encode("utf-8")`. -/
def utf8EncodeChar (c : Char) : List Nat :=
  let n := c.toNat
  if n < 128 then [n]
  else if n < 2048 then [192 + n / 64, 128 + n % 64]
  else if n < 65536 then [224 + n / 4096, 128 + n / 64 % 64, 128 + n % 64]
  else [240 + n / 262144, 128 + n / 4096 % 64, 128 + n / 64 % 64, 128 + n % 64]

/-- UTF-8 encoding of a string (`str.encode("utf-8")`), bytes as `Nat < 256`. -/
def utf8Encode (s : String) : List Nat := s.data.flatMap utf8EncodeChar

/-- The Submission Record of `main` (`payload`, lines 37-44): six string
fields. The `timestamp` value is the `iso8601_utc_now_ms()` string, passed in
as a parameter since it reads the clock. -/
structure SubmissionRecord where
  timestamp : String
  name : String
  email : String
  resume_link : String
  repository_link : String
  action_run_link : String

/-- The key-value pairs of the `payload` dict in the insertion order of the
source (lines 37-44). -/
def payloadFields (r : SubmissionRecord) : List (String × String) :=
  [("timestamp", r.timestamp), ("name", r.name), ("email", r.email),
   ("resume_link", r.resume_link), ("repository_link", r.repository_link),
   ("action_run_link", r.action_run_link)]

/-- Code-point lexicographic comparison on character lists: this is the
comparison CPython uses for `str < str`, hence for `sort_keys=True`. -/
def charListLt : List Char → List Char → Bool
  | [], [] => false
  | [], _ :: _ => true
  | _ :: _, [] => false
  | a :: as, b :: bs =>
    if a.toNat < b.toNat then true
    else if b.toNat < a.toNat then false
    else charListLt as bs

/-- Python string `<`. -/
def pyStrLt (a b : String) : Bool := charListLt a.data b.data

/-- Insert one key-value pair into a key-sorted list (ascending by key). -/
def insertByKey (p : String × String) : List (String × String) → List (String × String)
  | [] => [p]
  | q :: qs => if pyStrLt p.1 q.1 then p :: q :: qs else q :: insertByKey p qs

/-- Sort key-value pairs by ascending key: the effect of `sort_keys=True` in
`json.dumps` on a flat dict with distinct keys. -/
def sortByKey : List (String × String) → List (String × String)
  | [] => []
  | p :: ps => insertByKey p (sortByKey ps)

/-- Serialize key-value items with the compact separators
`separators=(",", ":")` of line 47: `"key":"value"` joined by `,` with no
whitespace added anywhere. -/
def serializeItems : List (String × String) → String
  | [] => ""
  | [kv] => jsonNameQuote kv.1 ++ ":" ++ jsonNameQuote kv.2
  | kv :: rest => jsonNameQuote kv.1 ++ ":" ++ jsonNameQuote kv.2 ++ "," ++ serializeItems rest

/-- `body_str` of line 47:
`json.dumps(payload, sort_keys=True, separators=(",", ":"), ensure_ascii=False)`
for the flat all-string `payload` dict. -/
def canonicalSerialize (r : SubmissionRecord) : String :=
  "\x7b" ++ serializeItems (sortByKey (payloadFields r)) ++ "\x7d"

/-- `body_bytes` of line 48: `body_str.encode("utf-8")`. -/
def canonicalBytes (r : SubmissionRecord) : List Nat :=
  utf8Encode (canonicalSerialize r)

/-- The six payload keys in ascending order. -/
def canonKeys : List String :=
  ["action_run_link", "email", "name", "repository_link", "resume_link", "timestamp"]

/-- A key list is strictly ascending in Python string order. -/
def keysSortedAsc : List String → Bool
  | [] => true
  | [_] => true
  | a :: b :: rest => pyStrLt a b && keysSortedAsc (b :: rest)

/-!
SHA-256 (FIPS 180-4) and HMAC (RFC 2104), embedding the `hashlib.sha256` and
`hmac.new(key, msg, hashlib.sha256)` primitives that line 52 of the source
applies once. Words are `Nat` reduced modulo `2 ^ 32`; bytes are `Nat < 256`.
-/

/-- Truncate to a 32-bit word. -/
def w32 (n : Nat) : Nat := n % 4294967296

/-- Right rotation of a 32-bit word. -/
def rotr32 (n x : Nat) : Nat := w32 ((x >>> n) + ((x % (2 ^ n)) <<< (32 - n)))

def shaCh (x y z : Nat) : Nat := w32 ((x &&& y) ^^^ ((x ^^^ 4294967295) &&& z))

def shaMaj (x y z : Nat) : Nat := w32 ((x &&& y) ^^^ (x &&& z) ^^^ (y &&& z))

def bigSigma0 (x : Nat) : Nat := rotr32 2 x ^^^ rotr32 13 x ^^^ rotr32 22 x

def bigSigma1 (x : Nat) : Nat := rotr32 6 x ^^^ rotr32 11 x ^^^ rotr32 25 x

def smallSigma0 (x : Nat) : Nat := rotr32 7 x ^^^ rotr32 18 x ^^^ (x >>> 3)

def smallSigma1 (x : Nat) : Nat := rotr32 17 x ^^^ rotr32 19 x ^^^ (x >>> 10)

/-- The SHA-256 round constants (FIPS 180-4 section 4.2.2), in decimal. -/
def sha256K : List Nat :=
  [1116352408, 1899447441, 3049323471, 3921009573, 961987163, 1508970993,
   2453635748, 2870763221, 3624381080, 310598401, 607225278, 1426881987,
   1925078388, 2162078206, 2614888103, 3248222580, 3835390401, 4022224774,
   264347078, 604807628, 770255983, 1249150122, 1555081692, 1996064986,
   2554220882, 2821834349, 2952996808, 3210313671, 3336571891, 3584528711,
   113926993, 338241895, 666307205, 773529912, 1294757372, 1396182291,
   1695183700, 1986661051, 2177026350, 2456956037, 2730485921, 2820302411,
   3259730800, 3345764771, 3516065817, 3600352804, 4094571909, 275423344,
   430227734, 506948616, 659060556, 883997877, 958139571, 1322822218,
   1537002063, 1747873779, 1955562222, 2024104815, 2227730452, 2361852424,
   2428436474, 2756734187, 3204031479, 3329325298]

/-- The SHA-256 working state: the eight 32-bit hash variables. -/
abbrev SHAState := Nat × Nat × Nat × Nat × Nat × Nat × Nat × Nat

/-- The SHA-256 initial hash value (FIPS 180-4 section 5.3.3), in decimal. -/
def sha256IV : SHAState :=
  (1779033703, 3144134277, 1013904242, 2773480762,
   1359893119, 2600822924, 528734635, 1541459225)

/-- Group bytes into big-endian 32-bit words. -/
def toWordsBE : List Nat → List Nat
  | b0 :: b1 :: b2 :: b3 :: rest =>
    (b0 * 16777216 + b1 * 65536 + b2 * 256 + b3) :: toWordsBE rest
  | _ => []

/-- Extend a 16-word block to the 64-word message schedule. -/
def extendSched (ws : Array Nat) : Array Nat :=
  (List.range 48).foldl
    (fun a i =>
      a.push (w32 (smallSigma1 (a.getD (i + 14) 0) + a.getD (i + 9) 0 +
        smallSigma0 (a.getD (i + 1) 0) + a.getD i 0)))
    ws

/-- One SHA-256 compression round; the pair carries `(K[t], W[t])`. -/
def sha256Round (st : SHAState) (kw : Nat × Nat) : SHAState :=
  match st with
  | (a, b, c, d, e, f, g, h) =>
    let t1 := w32 (h + bigSigma1 e + shaCh e f g + kw.1 + kw.2)
    let t2 := w32 (bigSigma0 a + shaMaj a b c)
    (w32 (t1 + t2), a, b, c, w32 (d + t1), e, f, g)

/-- Process one 64-byte block. -/
def sha256Compress (st : SHAState) (block : List Nat) : SHAState :=
  let ws := (extendSched (toWordsBE block).toArray).toList
  match st, (sha256K.zip ws).foldl sha256Round st with
  | (a, b, c, d, e, f, g, h), (a2, b2, c2, d2, e2, f2, g2, h2) =>
    (w32 (a + a2), w32 (b + b2), w32 (c + c2), w32 (d + d2),
     w32 (e + e2), w32 (f + f2), w32 (g + g2), w32 (h + h2))

/-- Split a byte list into 64-byte chunks. -/
def chunk64 (l : List Nat) : List (List Nat) :=
  if h : l = [] then [] else l.take 64 :: chunk64 (l.drop 64)
termination_by l.length
decreasing_by
  have hl : 0 < l.length := List.length_pos.mpr h
  simp [List.length_drop]
  omega

/-- Big-endian 8-byte rendering of the 64-bit message bit length. -/
def lenBytes64 (n : Nat) : List Nat :=
  [n >>> 56 % 256, n >>> 48 % 256, n >>> 40 % 256, n >>> 32 % 256,
   n >>> 24 % 256, n >>> 16 % 256, n >>> 8 % 256, n % 256]

/-- SHA-256 padding: `0x80`, zeros to 56 mod 64, then the bit length. -/
def sha256Pad (msg : List Nat) : List Nat :=
  msg ++ [128] ++ List.replicate ((120 - (msg.length + 1) % 64) % 64) 0 ++
    lenBytes64 (8 * msg.length)

/-- Big-endian bytes of one 32-bit word. -/
def wordBytesBE (x : Nat) : List Nat :=
  [x / 16777216 % 256, x / 65536 % 256, x / 256 % 256, x % 256]

/-- The 32 digest bytes of a final state. -/
def stateBytes (st : SHAState) : List Nat :=
  match st with
  | (a, b, c, d, e, f, g, h) =>
    wordBytesBE a ++ wordBytesBE b ++ wordBytesBE c ++ wordBytesBE d ++
    wordBytesBE e ++ wordBytesBE f ++ wordBytesBE g ++ wordBytesBE h

/-- SHA-256 of a byte string, as `hashlib.sha256(x).digest()`. -/
def sha256 (msg : List Nat) : List Nat :=
  stateBytes ((chunk64 (sha256Pad msg)).foldl sha256Compress sha256IV)

/-- HMAC-SHA256 (RFC 2104) with the 64-byte block size of SHA-256, as
`hmac.new(key, msg, hashlib.sha256).digest()`. -/
def hmacSha256 (key msg : List Nat) : List Nat :=
  let k0 := if 64 < key.length then sha256 key else key
  let k := k0 ++ List.replicate (64 - k0.length) 0
  let ipad := k.map (fun b => b ^^^ 54)
  let opad := k.map (fun b => b ^^^ 92)
  sha256 (opad ++ sha256 (ipad ++ msg))

/-- Lowercase hexadecimal rendering of a byte string (`.hexdigest()`). -/
def hexDigest (bs : List Nat) : String :=
  String.mk (bs.flatMap (fun b => [hexDigit (b / 16), hexDigit (b % 16)]))

/-!
Environment reading (`require_env`, lines 17-21, and the lookups in `main`).
-/

/-- Characters for which Python `str.isspace()` is true; `str.strip()` with no
argument strips exactly these. -/
def pyIsSpace (c : Char) : Bool :=
  let n := c.toNat
  (9 ≤ n && n ≤ 13) || (28 ≤ n && n ≤ 31) || n = 32 || n = 133 || n = 160 ||
  n = 5760 || (8192 ≤ n && n ≤ 8202) || n = 8232 || n = 8233 || n = 8239 ||
  n = 8287 || n = 12288

/-- Python `str.strip()`: remove leading and trailing whitespace. -/
def pyStrip (s : String) : String :=
  String.mk (((s.data.dropWhile pyIsSpace).reverse.dropWhile pyIsSpace).reverse)

/-- `require_env` (lines 17-21): `os.getenv(name, "").strip()`, then
`raise SystemExit(f"Missing required env var: ...")` when the result is empty
(Python `not v` on a string is emptiness). -/
def require_env (env : String → Option String) (name : String) : Except String String :=
  let v := pyStrip ((env name).getD "")
  if v = "" then Except.error ("Missing required env var: " ++ name)
  else Except.ok v

/-- The required environment variables, in the order `main` reads them
(lines 25-32). -/
def requiredVars : List String :=
  ["B12_NAME", "B12_EMAIL", "B12_RESUME_LINK",
   "GITHUB_SERVER_URL", "GITHUB_REPOSITORY", "GITHUB_RUN_ID"]

/-- The six resolved environment values. -/
structure EnvValues where
  name : String
  email : String
  resume_link : String
  server_url : String
  repo : String
  run_id : String
deriving DecidableEq

/-- Lines 25-32 of `main`: the six `require_env` calls in source order; the
first failure aborts the run (`SystemExit` propagates). -/
def resolveEnv (env : String → Option String) : Except String EnvValues :=
  match require_env env "B12_NAME" with
  | Except.error e => Except.error e
  | Except.ok name =>
  match require_env env "B12_EMAIL" with
  | Except.error e => Except.error e
  | Except.ok email =>
  match require_env env "B12_RESUME_LINK" with
  | Except.error e => Except.error e
  | Except.ok resume_link =>
  match require_env env "GITHUB_SERVER_URL" with
  | Except.error e => Except.error e
  | Except.ok server_url =>
  match require_env env "GITHUB_REPOSITORY" with
  | Except.error e => Except.error e
  | Except.ok repo =>
  match require_env env "GITHUB_RUN_ID" with
  | Except.error e => Except.error e
  | Except.ok run_id =>
  Except.ok ⟨name, email, resume_link, server_url, repo, run_id⟩

/-- Lines 34-44 of `main`: the derived links
(`f"\x7bserver_url\x7d/\x7brepo\x7d"` and the `/actions/runs/` variant) and
the `payload` dict. `now` is the `iso8601_utc_now_ms()` timestamp string. -/
def buildPayload (now : String) (v : EnvValues) : SubmissionRecord :=
  { timestamp := now
    name := v.name
    email := v.email
    resume_link := v.resume_link
    repository_link := v.server_url ++ "/" ++ v.repo
    action_run_link := v.server_url ++ "/" ++ v.repo ++ "/actions/runs/" ++ v.run_id }

/-- Line 51: `os.getenv("B12_SIGNING_SECRET", "hello-there-from-b12")` — the
default applies only when the variable is entirely unset; no strip, no
blankness check. -/
def signingSecret (env : String → Option String) : String :=
  (env "B12_SIGNING_SECRET").getD "hello-there-from-b12"

/-- The HMAC key of line 51: `.encode("utf-8")` of the signing secret. -/
def signingKey (env : String → Option String) : List Nat :=
  utf8Encode (signingSecret env)

/-- The fixed endpoint (line 10). -/
def B12_ENDPOINT : String := "https://b12.io/apply/submission"

/-- The single `urllib.request.Request` of lines 55-63 together with the
`timeout=30` argument passed to `urlopen` on line 66. -/
structure HttpRequest where
  url : String
  method : String
  body : List Nat
  contentType : String
  xSignature256 : String
  timeoutSeconds : Nat
deriving DecidableEq

/-- Lines 46-63: serialize the payload, sign the exact bytes, and build the
request carrying those same bytes and the signature header. -/
def buildRequest (env : String → Option String) (r : SubmissionRecord) : HttpRequest :=
  let body_bytes := canonicalBytes r
  let digest := hexDigest (hmacSha256 (signingKey env) body_bytes)
  { url := B12_ENDPOINT
    method := "POST"
    body := body_bytes
    contentType := "application/json; charset=utf-8"
    xSignature256 := "sha256=" ++ digest
    timeoutSeconds := 30 }

/-!
Response handling (lines 65-82). Parsed JSON values are modelled by `JVal`
(JSON integers as `Int`; the claims under verification involve no float
literals). `json.loads` itself is standard-library code, abstracted as an
oracle `parse : String → Option JVal` with `none` for `JSONDecodeError`.
-/

/-- A parsed JSON value as produced by `json.loads`. -/
inductive JVal where
  | null : JVal
  | bool : Bool → JVal
  | num : Int → JVal
  | str : String → JVal
  | arr : List JVal → JVal
  | obj : List (String × JVal) → JVal

/-- Python truthiness (`bool(x)`) of a parsed JSON value. -/
def pyTruthy : JVal → Bool
  | JVal.null => false
  | JVal.bool b => b
  | JVal.num n => decide (n ≠ 0)
  | JVal.str s => decide (s ≠ "")
  | JVal.arr [] => false
  | JVal.arr (_ :: _) => true
  | JVal.obj [] => false
  | JVal.obj (_ :: _) => true

/-- The maximal inclusive ranges of code points for which CPython
`str.isprintable` is false (the Unicode 14.0.0 character database that
CPython of this source's era ships; the surrogate block is merged in,
although a `Char` cannot carry it). `repr` escapes exactly these code points
and renders every other one literally. Code points that a different Unicode
database version leaves unassigned or newly assigns may differ. -/
def pyNonPrintableRanges : List (Nat × Nat) :=
  [(0, 31), (127, 160), (173, 173), (888, 889), (896, 899), (907, 907),
   (909, 909), (930, 930), (1328, 1328), (1367, 1368), (1419, 1420), (1424, 1424),
   (1480, 1487), (1515, 1518), (1525, 1541), (1564, 1564), (1757, 1757), (1806, 1807),
   (1867, 1868), (1970, 1983), (2043, 2044), (2094, 2095), (2111, 2111), (2140, 2141),
   (2143, 2143), (2155, 2159), (2191, 2199), (2274, 2274), (2436, 2436), (2445, 2446),
   (2449, 2450), (2473, 2473), (2481, 2481), (2483, 2485), (2490, 2491), (2501, 2502),
   (2505, 2506), (2511, 2518), (2520, 2523), (2526, 2526), (2532, 2533), (2559, 2560),
   (2564, 2564), (2571, 2574), (2577, 2578), (2601, 2601), (2609, 2609), (2612, 2612),
   (2615, 2615), (2618, 2619), (2621, 2621), (2627, 2630), (2633, 2634), (2638, 2640),
   (2642, 2648), (2653, 2653), (2655, 2661), (2679, 2688), (2692, 2692), (2702, 2702),
   (2706, 2706), (2729, 2729), (2737, 2737), (2740, 2740), (2746, 2747), (2758, 2758),
   (2762, 2762), (2766, 2767), (2769, 2783), (2788, 2789), (2802, 2808), (2816, 2816),
   (2820, 2820), (2829, 2830), (2833, 2834), (2857, 2857), (2865, 2865), (2868, 2868),
   (2874, 2875), (2885, 2886), (2889, 2890), (2894, 2900), (2904, 2907), (2910, 2910),
   (2916, 2917), (2936, 2945), (2948, 2948), (2955, 2957), (2961, 2961), (2966, 2968),
   (2971, 2971), (2973, 2973), (2976, 2978), (2981, 2983), (2987, 2989), (3002, 3005),
   (3011, 3013), (3017, 3017), (3022, 3023), (3025, 3030), (3032, 3045), (3067, 3071),
   (3085, 3085), (3089, 3089), (3113, 3113), (3130, 3131), (3141, 3141), (3145, 3145),
   (3150, 3156), (3159, 3159), (3163, 3164), (3166, 3167), (3172, 3173), (3184, 3190),
   (3213, 3213), (3217, 3217), (3241, 3241), (3252, 3252), (3258, 3259), (3269, 3269),
   (3273, 3273), (3278, 3284), (3287, 3292), (3295, 3295), (3300, 3301), (3312, 3312),
   (3315, 3327), (3341, 3341), (3345, 3345), (3397, 3397), (3401, 3401), (3408, 3411),
   (3428, 3429), (3456, 3456), (3460, 3460), (3479, 3481), (3506, 3506), (3516, 3516),
   (3518, 3519), (3527, 3529), (3531, 3534), (3541, 3541), (3543, 3543), (3552, 3557),
   (3568, 3569), (3573, 3584), (3643, 3646), (3676, 3712), (3715, 3715), (3717, 3717),
   (3723, 3723), (3748, 3748), (3750, 3750), (3774, 3775), (3781, 3781), (3783, 3783),
   (3790, 3791), (3802, 3803), (3808, 3839), (3912, 3912), (3949, 3952), (3992, 3992),
   (4029, 4029), (4045, 4045), (4059, 4095), (4294, 4294), (4296, 4300), (4302, 4303),
   (4681, 4681), (4686, 4687), (4695, 4695), (4697, 4697), (4702, 4703), (4745, 4745),
   (4750, 4751), (4785, 4785), (4790, 4791), (4799, 4799), (4801, 4801), (4806, 4807),
   (4823, 4823), (4881, 4881), (4886, 4887), (4955, 4956), (4989, 4991), (5018, 5023),
   (5110, 5111), (5118, 5119), (5760, 5760), (5789, 5791), (5881, 5887), (5910, 5918),
   (5943, 5951), (5972, 5983), (5997, 5997), (6001, 6001), (6004, 6015), (6110, 6111),
   (6122, 6127), (6138, 6143), (6158, 6158), (6170, 6175), (6265, 6271), (6315, 6319),
   (6390, 6399), (6431, 6431), (6444, 6447), (6460, 6463), (6465, 6467), (6510, 6511),
   (6517, 6527), (6572, 6575), (6602, 6607), (6619, 6621), (6684, 6685), (6751, 6751),
   (6781, 6782), (6794, 6799), (6810, 6815), (6830, 6831), (6863, 6911), (6989, 6991),
   (7039, 7039), (7156, 7163), (7224, 7226), (7242, 7244), (7305, 7311), (7355, 7356),
   (7368, 7375), (7419, 7423), (7958, 7959), (7966, 7967), (8006, 8007), (8014, 8015),
   (8024, 8024), (8026, 8026), (8028, 8028), (8030, 8030), (8062, 8063), (8117, 8117),
   (8133, 8133), (8148, 8149), (8156, 8156), (8176, 8177), (8181, 8181), (8191, 8207),
   (8232, 8239), (8287, 8303), (8306, 8307), (8335, 8335), (8349, 8351), (8385, 8399),
   (8433, 8447), (8588, 8591), (9255, 9279), (9291, 9311), (11124, 11125), (11158, 11158),
   (11508, 11512), (11558, 11558), (11560, 11564), (11566, 11567), (11624, 11630), (11633, 11646),
   (11671, 11679), (11687, 11687), (11695, 11695), (11703, 11703), (11711, 11711), (11719, 11719),
   (11727, 11727), (11735, 11735), (11743, 11743), (11870, 11903), (11930, 11930), (12020, 12031),
   (12246, 12271), (12284, 12288), (12352, 12352), (12439, 12440), (12544, 12548), (12592, 12592),
   (12687, 12687), (12772, 12783), (12831, 12831), (42125, 42127), (42183, 42191), (42540, 42559),
   (42744, 42751), (42955, 42959), (42962, 42962), (42964, 42964), (42970, 42993), (43053, 43055),
   (43066, 43071), (43128, 43135), (43206, 43213), (43226, 43231), (43348, 43358), (43389, 43391),
   (43470, 43470), (43482, 43485), (43519, 43519), (43575, 43583), (43598, 43599), (43610, 43611),
   (43715, 43738), (43767, 43776), (43783, 43784), (43791, 43792), (43799, 43807), (43815, 43815),
   (43823, 43823), (43884, 43887), (44014, 44015), (44026, 44031), (55204, 55215), (55239, 55242),
   (55292, 63743), (64110, 64111), (64218, 64255), (64263, 64274), (64280, 64284), (64311, 64311),
   (64317, 64317), (64319, 64319), (64322, 64322), (64325, 64325), (64451, 64466), (64912, 64913),
   (64968, 64974), (64976, 65007), (65050, 65055), (65107, 65107), (65127, 65127), (65132, 65135),
   (65141, 65141), (65277, 65280), (65471, 65473), (65480, 65481), (65488, 65489), (65496, 65497),
   (65501, 65503), (65511, 65511), (65519, 65531), (65534, 65535), (65548, 65548), (65575, 65575),
   (65595, 65595), (65598, 65598), (65614, 65615), (65630, 65663), (65787, 65791), (65795, 65798),
   (65844, 65846), (65935, 65935), (65949, 65951), (65953, 65999), (66046, 66175), (66205, 66207),
   (66257, 66271), (66300, 66303), (66340, 66348), (66379, 66383), (66427, 66431), (66462, 66462),
   (66500, 66503), (66518, 66559), (66718, 66719), (66730, 66735), (66772, 66775), (66812, 66815),
   (66856, 66863), (66916, 66926), (66939, 66939), (66955, 66955), (66963, 66963), (66966, 66966),
   (66978, 66978), (66994, 66994), (67002, 67002), (67005, 67071), (67383, 67391), (67414, 67423),
   (67432, 67455), (67462, 67462), (67505, 67505), (67515, 67583), (67590, 67591), (67593, 67593),
   (67638, 67638), (67641, 67643), (67645, 67646), (67670, 67670), (67743, 67750), (67760, 67807),
   (67827, 67827), (67830, 67834), (67868, 67870), (67898, 67902), (67904, 67967), (68024, 68027),
   (68048, 68049), (68100, 68100), (68103, 68107), (68116, 68116), (68120, 68120), (68150, 68151),
   (68155, 68158), (68169, 68175), (68185, 68191), (68256, 68287), (68327, 68330), (68343, 68351),
   (68406, 68408), (68438, 68439), (68467, 68471), (68498, 68504), (68509, 68520), (68528, 68607),
   (68681, 68735), (68787, 68799), (68851, 68857), (68904, 68911), (68922, 69215), (69247, 69247),
   (69290, 69290), (69294, 69295), (69298, 69375), (69416, 69423), (69466, 69487), (69514, 69551),
   (69580, 69599), (69623, 69631), (69710, 69713), (69750, 69758), (69821, 69821), (69827, 69839),
   (69865, 69871), (69882, 69887), (69941, 69941), (69960, 69967), (70007, 70015), (70112, 70112),
   (70133, 70143), (70162, 70162), (70207, 70271), (70279, 70279), (70281, 70281), (70286, 70286),
   (70302, 70302), (70314, 70319), (70379, 70383), (70394, 70399), (70404, 70404), (70413, 70414),
   (70417, 70418), (70441, 70441), (70449, 70449), (70452, 70452), (70458, 70458), (70469, 70470),
   (70473, 70474), (70478, 70479), (70481, 70486), (70488, 70492), (70500, 70501), (70509, 70511),
   (70517, 70655), (70748, 70748), (70754, 70783), (70856, 70863), (70874, 71039), (71094, 71095),
   (71134, 71167), (71237, 71247), (71258, 71263), (71277, 71295), (71354, 71359), (71370, 71423),
   (71451, 71452), (71468, 71471), (71495, 71679), (71740, 71839), (71923, 71934), (71943, 71944),
   (71946, 71947), (71956, 71956), (71959, 71959), (71990, 71990), (71993, 71994), (72007, 72015),
   (72026, 72095), (72104, 72105), (72152, 72153), (72165, 72191), (72264, 72271), (72355, 72367),
   (72441, 72703), (72713, 72713), (72759, 72759), (72774, 72783), (72813, 72815), (72848, 72849),
   (72872, 72872), (72887, 72959), (72967, 72967), (72970, 72970), (73015, 73017), (73019, 73019),
   (73022, 73022), (73032, 73039), (73050, 73055), (73062, 73062), (73065, 73065), (73103, 73103),
   (73106, 73106), (73113, 73119), (73130, 73439), (73465, 73647), (73649, 73663), (73714, 73726),
   (74650, 74751), (74863, 74863), (74869, 74879), (75076, 77711), (77811, 77823), (78895, 82943),
   (83527, 92159), (92729, 92735), (92767, 92767), (92778, 92781), (92863, 92863), (92874, 92879),
   (92910, 92911), (92918, 92927), (92998, 93007), (93018, 93018), (93026, 93026), (93048, 93052),
   (93072, 93759), (93851, 93951), (94027, 94030), (94088, 94094), (94112, 94175), (94181, 94191),
   (94194, 94207), (100344, 100351), (101590, 101631), (101641, 110575), (110580, 110580), (110588, 110588),
   (110591, 110591), (110883, 110927), (110931, 110947), (110952, 110959), (111356, 113663), (113771, 113775),
   (113789, 113791), (113801, 113807), (113818, 113819), (113824, 118527), (118574, 118575), (118599, 118607),
   (118724, 118783), (119030, 119039), (119079, 119080), (119155, 119162), (119275, 119295), (119366, 119519),
   (119540, 119551), (119639, 119647), (119673, 119807), (119893, 119893), (119965, 119965), (119968, 119969),
   (119971, 119972), (119975, 119976), (119981, 119981), (119994, 119994), (119996, 119996), (120004, 120004),
   (120070, 120070), (120075, 120076), (120085, 120085), (120093, 120093), (120122, 120122), (120127, 120127),
   (120133, 120133), (120135, 120137), (120145, 120145), (120486, 120487), (120780, 120781), (121484, 121498),
   (121504, 121504), (121520, 122623), (122655, 122879), (122887, 122887), (122905, 122906), (122914, 122914),
   (122917, 122917), (122923, 123135), (123181, 123183), (123198, 123199), (123210, 123213), (123216, 123535),
   (123567, 123583), (123642, 123646), (123648, 124895), (124903, 124903), (124908, 124908), (124911, 124911),
   (124927, 124927), (125125, 125126), (125143, 125183), (125260, 125263), (125274, 125277), (125280, 126064),
   (126133, 126208), (126270, 126463), (126468, 126468), (126496, 126496), (126499, 126499), (126501, 126502),
   (126504, 126504), (126515, 126515), (126520, 126520), (126522, 126522), (126524, 126529), (126531, 126534),
   (126536, 126536), (126538, 126538), (126540, 126540), (126544, 126544), (126547, 126547), (126549, 126550),
   (126552, 126552), (126554, 126554), (126556, 126556), (126558, 126558), (126560, 126560), (126563, 126563),
   (126565, 126566), (126571, 126571), (126579, 126579), (126584, 126584), (126589, 126589), (126591, 126591),
   (126602, 126602), (126620, 126624), (126628, 126628), (126634, 126634), (126652, 126703), (126706, 126975),
   (127020, 127023), (127124, 127135), (127151, 127152), (127168, 127168), (127184, 127184), (127222, 127231),
   (127406, 127461), (127491, 127503), (127548, 127551), (127561, 127567), (127570, 127583), (127590, 127743),
   (128728, 128732), (128749, 128751), (128765, 128767), (128884, 128895), (128985, 128991), (129004, 129007),
   (129009, 129023), (129036, 129039), (129096, 129103), (129114, 129119), (129160, 129167), (129198, 129199),
   (129202, 129279), (129620, 129631), (129646, 129647), (129653, 129655), (129661, 129663), (129671, 129679),
   (129709, 129711), (129723, 129727), (129734, 129743), (129754, 129759), (129768, 129775), (129783, 129791),
   (129939, 129939), (129995, 130031), (130042, 131071), (173792, 173823), (177977, 177983), (178206, 178207),
   (183970, 183983), (191457, 194559), (195102, 196607), (201547, 917759), (918000, 1114111)]

/-- CPython `str.isprintable` is false for `c`. -/
def pyUnprintable (c : Char) : Bool :=
  pyNonPrintableRanges.any (fun p => decide (p.1 ≤ c.toNat) && decide (c.toNat ≤ p.2))

/-- One escaped character inside a CPython `str.__repr__` with quote
character `q`: backslash and the quote are escaped, `\t` `\n` `\r` get their
short escapes, every other non-printable code point (C0 and C1 controls, DEL,
and the format, separator, private-use, surrogate and unassigned code points
of `pyNonPrintableRanges`) gets `\xXX`, `\uXXXX` or `\UXXXXXXXX` lowercase
hex escapes by size; printable characters are emitted literally. -/
def pyReprChar (q : Char) (c : Char) : List Char :=
  if c = '\\' then ['\\', '\\']
  else if c = q then ['\\', q]
  else if c = '\t' then ['\\', 't']
  else if c = '\n' then ['\\', 'n']
  else if c = '\r' then ['\\', 'r']
  else if pyUnprintable c then
    if c.toNat < 256 then ['\\', 'x', hexDigit (c.toNat / 16), hexDigit (c.toNat % 16)]
    else if c.toNat < 65536 then
      ['\\', 'u', hexDigit (c.toNat / 4096 % 16), hexDigit (c.toNat / 256 % 16),
       hexDigit (c.toNat / 16 % 16), hexDigit (c.toNat % 16)]
    else
      ['\\', 'U', hexDigit (c.toNat / 268435456 % 16), hexDigit (c.toNat / 16777216 % 16),
       hexDigit (c.toNat / 1048576 % 16), hexDigit (c.toNat / 65536 % 16),
       hexDigit (c.toNat / 4096 % 16), hexDigit (c.toNat / 256 % 16),
       hexDigit (c.toNat / 16 % 16), hexDigit (c.toNat % 16)]
  else [c]

/-- CPython `repr` of a string: single-quoted, except double-quoted when the
string contains a single quote but no double quote. -/
def pyReprStr (s : String) : String :=
  if s.data.contains (Char.ofNat 39) && !(s.data.contains '"') then
    "\"" ++ String.mk (s.data.flatMap (pyReprChar '"')) ++ "\""
  else
    String.mk (Char.ofNat 39 :: s.data.flatMap (pyReprChar (Char.ofNat 39)) ++ [Char.ofNat 39])

mutual

/-- CPython `repr`/`str` of a value decoded from JSON, as interpolated by the
f-string on line 79 (`str` of a dict is its `repr`). -/
def pyRepr : JVal → String
  | JVal.null => "None"
  | JVal.bool true => "True"
  | JVal.bool false => "False"
  | JVal.num n => toString n
  | JVal.str s => pyReprStr s
  | JVal.arr l => "[" ++ pyReprList l ++ "]"
  | JVal.obj l => "\x7b" ++ pyReprObj l ++ "\x7d"

/-- Comma-separated `repr` items of a list. -/
def pyReprList : List JVal → String
  | [] => ""
  | [v] => pyRepr v
  | v :: vs => pyRepr v ++ ", " ++ pyReprList vs

/-- Comma-separated `repr(key): repr(value)` items of a dict. -/
def pyReprObj : List (String × JVal) → String
  | [] => ""
  | [kv] => pyReprStr kv.1 ++ ": " ++ pyRepr kv.2
  | kv :: kvs => pyReprStr kv.1 ++ ": " ++ pyRepr kv.2 ++ ", " ++ pyReprObj kvs

end

/-- Python `str()` of a value decoded from JSON, as printed by line 82:
the identity on strings, `repr` otherwise. -/
def pyStr : JVal → String
  | JVal.str s => s
  | v => pyRepr v

/-- Outcome of the one `urlopen` call: the decoded body on HTTP success, or an
`urllib.error.HTTPError` with its status code and decoded error body. -/
inductive TransportResult where
  | ok : String → TransportResult
  | httpError : Nat → String → TransportResult

/-- Overall process outcome. `failure` is `raise SystemExit(msg)` (exit code
1, message on stderr); `crash` is an uncaught Python exception (also exit
code 1); `success` is the normal return after `print(receipt)`. -/
inductive RunResult where
  | success : String → RunResult
  | failure : String → RunResult
  | crash : String → RunResult
deriving DecidableEq

/-- Process exit code of an outcome. -/
def exitCode : RunResult → Nat
  | RunResult.success _ => 0
  | RunResult.failure _ => 1
  | RunResult.crash _ => 1

/-- Lines printed to stdout by an outcome (line 82 is the only print). -/
def stdoutLines : RunResult → List String
  | RunResult.success s => [s]
  | RunResult.failure _ => []
  | RunResult.crash _ => []

/-- Lines 65-70: on `HTTPError` the handler reads the error body and raises
`SystemExit(f"HTTP \x7be.code\x7d error from B12: \x7berr_body\x7d")`. -/
def handleTransport : TransportResult → Except String String
  | TransportResult.ok body => Except.ok body
  | TransportResult.httpError code body =>
    Except.error ("HTTP " ++ toString code ++ " error from B12: " ++ body)

/-- Lines 78-82: `if not data.get("success") or "receipt" not in data:` then
`SystemExit(f"Unexpected response from B12: \x7bdata\x7d")`, else
`print(data["receipt"])`. On a non-dict value, `data.get` raises
`AttributeError` (neither `SystemExit` nor a print). -/
def respCheck : JVal → RunResult
  | JVal.obj kvs =>
    if !pyTruthy ((kvs.lookup "success").getD JVal.null) ||
        (kvs.lookup "receipt").isNone then
      RunResult.failure ("Unexpected response from B12: " ++ pyRepr (JVal.obj kvs))
    else
      RunResult.success (pyStr ((kvs.lookup "receipt").getD JVal.null))
  | v =>
    RunResult.crash ("AttributeError: " ++ pyRepr v)

/-- Lines 73-82: `json.loads` wrapped in `try`, with
`SystemExit(f"Non-JSON response from B12: \x7bresp_body\x7d")` on a decode
error, then the shape check. -/
def validatePhase (raw : String) : Option JVal → RunResult
  | none => RunResult.failure ("Non-JSON response from B12: " ++ raw)
  | some data => respCheck data

/-- The request `main` sends for a given environment and timestamp, when the
environment resolves. -/
def mainRequest (env : String → Option String) (now : String) : Option HttpRequest :=
  match resolveEnv env with
  | Except.error _ => none
  | Except.ok v => some (buildRequest env (buildPayload now v))

/-- The whole of `main` (lines 23-82) as a function of the oracles: the clock
string, the environment, the transport, and the JSON decoder. -/
def runMain (env : String → Option String) (now : String)
    (transport : HttpRequest → TransportResult)
    (parse : String → Option JVal) : RunResult :=
  match resolveEnv env with
  | Except.error msg => RunResult.failure msg
  | Except.ok v =>
    let req := buildRequest env (buildPayload now v)
    match handleTransport (transport req) with
    | Except.error msg => RunResult.failure msg
    | Except.ok resp_body => validatePhase resp_body (parse resp_body)

/-!
Helper lemmas.
-/

/-- Sorting the payload keys yields the six fields in ascending key order. -/
theorem sortPayload (r : SubmissionRecord) :
    sortByKey (payloadFields r) =
      [("action_run_link", r.action_run_link), ("email", r.email), ("name", r.name),
       ("repository_link", r.repository_link), ("resume_link", r.resume_link),
       ("timestamp", r.timestamp)] := rfl

theorem hasWs_mk (l : List Char) : hasWsStr (String.mk l) = l.any isWsChar := rfl

theorem hasWs_append (a b : String) :
    hasWsStr (a ++ b) = (hasWsStr a || hasWsStr b) := by
  simp [hasWsStr, String.data_append, List.any_append]

theorem hexDigit_not_ws (n : Nat) (hn : n < 16) : isWsChar (hexDigit n) = false := by
  interval_cases n <;> decide

theorem hexDigit_hex (n : Nat) (hn : n < 16) : isLowerHexChar (hexDigit n) = true := by
  interval_cases n <;> decide

theorem jsonEscapeChar_no_ws (c : Char) (hc : isWsChar c = false) :
    ∀ d ∈ jsonEscapeChar c, isWsChar d = false := by
  intro d hd
  unfold jsonEscapeChar at hd
  split_ifs at hd with h1 h2 h3 h4 h5 h6 h7 h8
  · simp [List.mem_cons] at hd
    rcases hd with rfl | rfl <;> decide
  · simp [List.mem_cons] at hd
    rcases hd with rfl | rfl <;> decide
  · simp [List.mem_cons] at hd
    rcases hd with rfl | rfl <;> decide
  · simp [List.mem_cons] at hd
    rcases hd with rfl | rfl <;> decide
  · simp [List.mem_cons] at hd
    rcases hd with rfl | rfl <;> decide
  · simp [List.mem_cons] at hd
    rcases hd with rfl | rfl <;> decide
  · simp [List.mem_cons] at hd
    rcases hd with rfl | rfl <;> decide
  · simp [uEscape, List.mem_cons] at hd
    rcases hd with rfl | rfl | rfl | rfl | rfl | rfl
    · decide
    · decide
    · exact hexDigit_not_ws _ (Nat.mod_lt _ (by decide))
    · exact hexDigit_not_ws _ (Nat.mod_lt _ (by decide))
    · exact hexDigit_not_ws _ (Nat.mod_lt _ (by decide))
    · exact hexDigit_not_ws _ (Nat.mod_lt _ (by decide))
  · simp [List.mem_cons] at hd
    subst hd
    exact hc

theorem jsonEscapeChar_nonascii (c : Char) (hc : 128 ≤ c.toNat) :
    jsonEscapeChar c = [c] := by
  unfold jsonEscapeChar
  split_ifs with h1 h2 h3 h4 h5 h6 h7 h8
  · exact absurd hc (by subst h1; decide)
  · exact absurd hc (by subst h2; decide)
  · exact absurd hc (by subst h3; decide)
  · exact absurd hc (by subst h4; decide)
  · exact absurd hc (by subst h5; decide)
  · exact absurd hc (by subst h6; decide)
  · exact absurd hc (by subst h7; decide)
  · omega
  · rfl

theorem jsonNameQuote_no_ws (s : String) (hs : hasWsStr s = false) :
    hasWsStr (jsonNameQuote s) = false := by
  have hsd : ∀ c ∈ s.data, isWsChar c = false := by
    have h2 := List.any_eq_false.mp (by simpa [hasWsStr] using hs)
    intro c hc
    simpa using h2 c hc
  simp only [jsonNameQuote, hasWs_append, hasWs_mk, Bool.or_eq_false_iff]
  refine ⟨⟨by decide, ?_⟩, by decide⟩
  rw [List.any_eq_false]
  intro d hd
  rcases List.mem_flatMap.mp hd with ⟨c, hc, hdc⟩
  simpa using jsonEscapeChar_no_ws c (hsd c hc) d hdc

theorem wordBytesBE_lt (x : Nat) : ∀ b ∈ wordBytesBE x, b < 256 := by
  intro b hb
  simp [wordBytesBE] at hb
  rcases hb with rfl | rfl | rfl | rfl <;> omega

theorem stateBytes_length (st : SHAState) : (stateBytes st).length = 32 := by
  obtain ⟨a, b, c, d, e, f, g, h⟩ := st
  simp [stateBytes, wordBytesBE]

theorem stateBytes_lt (st : SHAState) : ∀ b ∈ stateBytes st, b < 256 := by
  obtain ⟨a, b, c, d, e, f, g, h⟩ := st
  intro x hx
  simp only [stateBytes, List.mem_append] at hx
  rcases hx with ((((((hx | hx) | hx) | hx) | hx) | hx) | hx) | hx <;>
    exact wordBytesBE_lt _ _ hx

theorem sha256_length (msg : List Nat) : (sha256 msg).length = 32 :=
  stateBytes_length _

theorem sha256_lt (msg : List Nat) : ∀ b ∈ sha256 msg, b < 256 :=
  stateBytes_lt _

theorem hmacSha256_length (key msg : List Nat) : (hmacSha256 key msg).length = 32 := by
  simp only [hmacSha256]
  exact sha256_length _

theorem hmacSha256_lt (key msg : List Nat) : ∀ b ∈ hmacSha256 key msg, b < 256 := by
  simp only [hmacSha256]
  exact sha256_lt _

theorem hexPairs_length (bs : List Nat) :
    (bs.flatMap fun b => [hexDigit (b / 16), hexDigit (b % 16)]).length = 2 * bs.length := by
  induction bs with
  | nil => rfl
  | cons b bs ih => simp [List.flatMap_cons, ih]; omega

theorem hexDigest_length (bs : List Nat) : (hexDigest bs).length = 2 * bs.length := by
  simpa [hexDigest, String.length] using hexPairs_length bs

theorem hexDigest_chars (bs : List Nat) (h : ∀ b ∈ bs, b < 256) :
    ∀ c ∈ (hexDigest bs).data, isLowerHexChar c = true := by
  intro c hc
  rcases List.mem_flatMap.mp hc with ⟨b, hb, hcb⟩
  have hblt : b < 256 := h b hb
  simp [List.mem_cons] at hcb
  rcases hcb with rfl | rfl
  · exact hexDigit_hex _ (by omega)
  · exact hexDigit_hex _ (Nat.mod_lt _ (by decide))

/-!
Claim theorems.
-/

/-- C1: canonical serialization of the Submission Record is deterministic and
has the canonical shape: the six keys appear in ascending lexicographic order
with the compact `:`/`,` separators and nothing between tokens, non-ASCII
characters are emitted literally (never as escape sequences), the byte
sequence is the UTF-8 encoding of that rendering, whitespace can only come
from field values (none is introduced between tokens), and serializing the
same record twice yields byte-identical output. -/
theorem c1_canonical_serialization (r : SubmissionRecord) :
    canonicalSerialize r =
      "\x7b" ++ serializeItems
        [("action_run_link", r.action_run_link), ("email", r.email), ("name", r.name),
         ("repository_link", r.repository_link), ("resume_link", r.resume_link),
         ("timestamp", r.timestamp)] ++ "\x7d"
    ∧ (sortByKey (payloadFields r)).map Prod.fst = canonKeys
    ∧ keysSortedAsc canonKeys = true
    ∧ (∀ c : Char, 128 ≤ c.toNat → jsonEscapeChar c = [c])
    ∧ canonicalBytes r = utf8Encode (canonicalSerialize r)
    ∧ (((payloadFields r).all fun kv => !hasWsStr kv.2) = true →
        hasWsStr (canonicalSerialize r) = false)
    ∧ (∀ r2 : SubmissionRecord, payloadFields r2 = payloadFields r →
        canonicalBytes r2 = canonicalBytes r) := by
  refine ⟨rfl, rfl, rfl, jsonEscapeChar_nonascii, rfl, ?_, ?_⟩
  · intro h
    simp only [payloadFields, List.all_cons, List.all_nil, Bool.and_eq_true,
      Bool.not_eq_true'] at h
    obtain ⟨h1, h2, h3, h4, h5, ⟨h6, -⟩⟩ := h
    have e : canonicalSerialize r =
        "\x7b" ++ serializeItems
          [("action_run_link", r.action_run_link), ("email", r.email), ("name", r.name),
           ("repository_link", r.repository_link), ("resume_link", r.resume_link),
           ("timestamp", r.timestamp)] ++ "\x7d" := rfl
    rw [e]
    simp only [serializeItems]
    simp [hasWs_append, jsonNameQuote_no_ws _ h1, jsonNameQuote_no_ws _ h2,
      jsonNameQuote_no_ws _ h3, jsonNameQuote_no_ws _ h4, jsonNameQuote_no_ws _ h5,
      jsonNameQuote_no_ws _ h6,
      (by decide : hasWsStr "\x7b" = false), (by decide : hasWsStr "\x7d" = false),
      (by decide : hasWsStr ":" = false), (by decide : hasWsStr "," = false),
      (by decide : hasWsStr (jsonNameQuote "action_run_link") = false),
      (by decide : hasWsStr (jsonNameQuote "email") = false),
      (by decide : hasWsStr (jsonNameQuote "name") = false),
      (by decide : hasWsStr (jsonNameQuote "repository_link") = false),
      (by decide : hasWsStr (jsonNameQuote "resume_link") = false),
      (by decide : hasWsStr (jsonNameQuote "timestamp") = false)]
  · intro r2 h
    simp [canonicalBytes, canonicalSerialize, h]

/-- C1 witness: at a concrete whitespace-free record the hypothesis of the
no-whitespace conjunct holds and the serialized output has no whitespace. -/
theorem c1_canonical_serialization_witness :
    ((payloadFields
        { timestamp := "2026-01-06T16:59:37.571Z", name := "Ada", email := "a@b.io",
          resume_link := "https://cv", repository_link := "https://github.com/a/b",
          action_run_link := "https://github.com/a/b/actions/runs/1" }).all
      fun kv => !hasWsStr kv.2) = true
    ∧ hasWsStr (canonicalSerialize
        { timestamp := "2026-01-06T16:59:37.571Z", name := "Ada", email := "a@b.io",
          resume_link := "https://cv", repository_link := "https://github.com/a/b",
          action_run_link := "https://github.com/a/b/actions/runs/1" }) = false :=
  ⟨by decide,
   (c1_canonical_serialization
      { timestamp := "2026-01-06T16:59:37.571Z", name := "Ada", email := "a@b.io",
        resume_link := "https://cv", repository_link := "https://github.com/a/b",
        action_run_link := "https://github.com/a/b/actions/runs/1" }).2.2.2.2.2.1
    (by decide)⟩

/-- C2: the transmitted `X-Signature-256` value is the literal `sha256=`
followed by the lowercase hexadecimal HMAC-SHA256 digest of the canonical
bytes keyed by the UTF-8 bytes of the signing secret; the digest rendering is
64 lowercase hex characters; the secret defaults to the fixed fallback
literal exactly when the variable is unset; and the digest is deterministic
in the key and input. -/
theorem c2_signature (env : String → Option String) (key body : List Nat) :
    (∀ r : SubmissionRecord, (buildRequest env r).xSignature256 =
        "sha256=" ++ hexDigest (hmacSha256 (utf8Encode (signingSecret env)) (canonicalBytes r)))
    ∧ (∀ c ∈ (hexDigest (hmacSha256 key body)).data, isLowerHexChar c = true)
    ∧ (hexDigest (hmacSha256 key body)).length = 64
    ∧ signingKey env = utf8Encode (signingSecret env)
    ∧ (env "B12_SIGNING_SECRET" = none → signingSecret env = "hello-there-from-b12")
    ∧ (∀ key2 body2 : List Nat, key2 = key → body2 = body →
        hmacSha256 key2 body2 = hmacSha256 key body) := by
  refine ⟨fun r => rfl, ?_, ?_, rfl, ?_, ?_⟩
  · exact hexDigest_chars _ (hmacSha256_lt key body)
  · rw [hexDigest_length, hmacSha256_length]
  · intro h
    simp [signingSecret, h]
  · intro k2 b2 hk hb
    rw [hk, hb]

/-- C2 witness: with the signing variable unset the key falls back to the
fixed literal, and the digest of fixed inputs is reproducible. -/
theorem c2_signature_witness :
    signingSecret (fun _ => none) = "hello-there-from-b12"
    ∧ hmacSha256 [1] [2] = hmacSha256 [1] [2] :=
  ⟨(c2_signature (fun _ => none) [] []).2.2.2.2.1 rfl,
   (c2_signature (fun _ => none) [1] [2]).2.2.2.2.2 [1] [2] rfl rfl⟩

/-- C3: the request body is the very byte sequence that was signed (no
re-serialization between signing and transmission), the request is a POST to
the fixed endpoint with the `Content-Type` and `X-Signature-256` headers and
a 30-second timeout, and the run consults the transport only at that single
request. -/
theorem c3_request_bytes (env : String → Option String) (r : SubmissionRecord) :
    (buildRequest env r).body = canonicalBytes r
    ∧ (buildRequest env r).xSignature256 =
        "sha256=" ++ hexDigest (hmacSha256 (signingKey env) ((buildRequest env r).body))
    ∧ (buildRequest env r).method = "POST"
    ∧ (buildRequest env r).url = "https://b12.io/apply/submission"
    ∧ (buildRequest env r).contentType = "application/json; charset=utf-8"
    ∧ (buildRequest env r).timeoutSeconds = 30
    ∧ (∀ now parse (t1 t2 : HttpRequest → TransportResult),
        (∀ q, mainRequest env now = some q → t1 q = t2 q) →
        runMain env now t1 parse = runMain env now t2 parse) := by
  refine ⟨rfl, rfl, rfl, rfl, rfl, rfl, ?_⟩
  intro now parse t1 t2 h
  cases hres : resolveEnv env with
  | error e => simp [runMain, hres]
  | ok v =>
    have ht := h (buildRequest env (buildPayload now v)) (by simp [mainRequest, hres])
    simp [runMain, hres, ht]

/-- C3 witness: two transports that agree at the one request the run builds
produce identical run outcomes. -/
theorem c3_request_bytes_witness :
    runMain (fun _ => some "x") "t" (fun _ => TransportResult.ok "b") (fun _ => none) =
      runMain (fun _ => some "x") "t" (fun _ => TransportResult.ok "b") (fun _ => none) :=
  (c3_request_bytes (fun _ => some "x")
      { timestamp := "t", name := "x", email := "x", resume_link := "x",
        repository_link := "x", action_run_link := "x" }).2.2.2.2.2.2
    "t" (fun _ => none) _ _ (fun _ _ => rfl)

/-- C4: if any required environment variable is absent or blank after
trimming, the run fails with exit code 1 and a message naming a missing
variable, identically for every transport (so before any network call);
otherwise the environment reader returns the value with surrounding
whitespace trimmed. -/
theorem c4_env_validation (env : String → Option String) (v : String)
    (hv : v ∈ requiredVars)
    (hblank : pyStrip ((env v).getD "") = "") :
    (∃ w ∈ requiredVars, pyStrip ((env w).getD "") = "" ∧
      ∀ now transport parse,
        runMain env now transport parse =
            RunResult.failure ("Missing required env var: " ++ w)
        ∧ exitCode (runMain env now transport parse) = 1)
    ∧ (∀ name val, env name = some val → pyStrip val ≠ "" →
        require_env env name = Except.ok (pyStrip val)) := by
  constructor
  · by_cases h1 : pyStrip ((env "B12_NAME").getD "") = ""
    · have hm : ∀ now transport parse, runMain env now transport parse =
          RunResult.failure ("Missing required env var: " ++ "B12_NAME") := by
        intro now t p
        simp [runMain, resolveEnv, require_env, h1]
      exact ⟨"B12_NAME", by decide, h1, fun now t p => ⟨hm now t p, by rw [hm now t p]; rfl⟩⟩
    · by_cases h2 : pyStrip ((env "B12_EMAIL").getD "") = ""
      · have hm : ∀ now transport parse, runMain env now transport parse =
            RunResult.failure ("Missing required env var: " ++ "B12_EMAIL") := by
          intro now t p
          simp [runMain, resolveEnv, require_env, h1, h2]
        exact ⟨"B12_EMAIL", by decide, h2, fun now t p => ⟨hm now t p, by rw [hm now t p]; rfl⟩⟩
      · by_cases h3 : pyStrip ((env "B12_RESUME_LINK").getD "") = ""
        · have hm : ∀ now transport parse, runMain env now transport parse =
              RunResult.failure ("Missing required env var: " ++ "B12_RESUME_LINK") := by
            intro now t p
            simp [runMain, resolveEnv, require_env, h1, h2, h3]
          exact ⟨"B12_RESUME_LINK", by decide, h3,
            fun now t p => ⟨hm now t p, by rw [hm now t p]; rfl⟩⟩
        · by_cases h4 : pyStrip ((env "GITHUB_SERVER_URL").getD "") = ""
          · have hm : ∀ now transport parse, runMain env now transport parse =
                RunResult.failure ("Missing required env var: " ++ "GITHUB_SERVER_URL") := by
              intro now t p
              simp [runMain, resolveEnv, require_env, h1, h2, h3, h4]
            exact ⟨"GITHUB_SERVER_URL", by decide, h4,
              fun now t p => ⟨hm now t p, by rw [hm now t p]; rfl⟩⟩
          · by_cases h5 : pyStrip ((env "GITHUB_REPOSITORY").getD "") = ""
            · have hm : ∀ now transport parse, runMain env now transport parse =
                  RunResult.failure ("Missing required env var: " ++ "GITHUB_REPOSITORY") := by
                intro now t p
                simp [runMain, resolveEnv, require_env, h1, h2, h3, h4, h5]
              exact ⟨"GITHUB_REPOSITORY", by decide, h5,
                fun now t p => ⟨hm now t p, by rw [hm now t p]; rfl⟩⟩
            · by_cases h6 : pyStrip ((env "GITHUB_RUN_ID").getD "") = ""
              · have hm : ∀ now transport parse, runMain env now transport parse =
                    RunResult.failure ("Missing required env var: " ++ "GITHUB_RUN_ID") := by
                  intro now t p
                  simp [runMain, resolveEnv, require_env, h1, h2, h3, h4, h5, h6]
                exact ⟨"GITHUB_RUN_ID", by decide, h6,
                  fun now t p => ⟨hm now t p, by rw [hm now t p]; rfl⟩⟩
              · exfalso
                simp [requiredVars] at hv
                rcases hv with rfl | rfl | rfl | rfl | rfl | rfl
                · exact h1 hblank
                · exact h2 hblank
                · exact h3 hblank
                · exact h4 hblank
                · exact h5 hblank
                · exact h6 hblank
  · intro name val hn hval
    simp [require_env, hn, hval]

/-- C4 witness: with an empty environment, the run fails naming a missing
variable for every transport. -/
theorem c4_env_validation_witness :
    ∃ w ∈ requiredVars,
      pyStrip (((fun _ => none : String → Option String) w).getD "") = "" ∧
      ∀ now transport parse,
        runMain (fun _ => none) now transport parse =
            RunResult.failure ("Missing required env var: " ++ w)
        ∧ exitCode (runMain (fun _ => none) now transport parse) = 1 :=
  (c4_env_validation (fun _ => none) "B12_NAME" (by decide) rfl).1

/-- C5 counterexample: the claim asserts that a response whose `receipt` is
not a string (here `42`) is treated as a fatal error with a non-zero exit;
in fact the shape check of line 78 only tests truthiness of `success` and
presence of the `receipt` key, so this response succeeds with exit code 0 and
prints `42`. -/
theorem c5_response_shape_counterexample :
    respCheck (JVal.obj [("success", JVal.bool true), ("receipt", JVal.num 42)]) =
      RunResult.success "42"
    ∧ exitCode (respCheck (JVal.obj [("success", JVal.bool true), ("receipt", JVal.num 42)])) = 0 :=
  ⟨rfl, rfl⟩

/-- C5 (amended): the run succeeds (exit code 0) exactly when the parsed
response is a JSON object whose `success` member is truthy — of any JSON
type, not necessarily boolean — and which has a `receipt` key — of any type,
not necessarily string; every other parsed response exits non-zero. -/
theorem c5_response_shape (data : JVal) :
    exitCode (respCheck data) = 0 ↔
      ∃ kvs, data = JVal.obj kvs ∧
        pyTruthy ((kvs.lookup "success").getD JVal.null) = true ∧
        (kvs.lookup "receipt").isSome = true := by
  cases data with
  | null => simp [respCheck, exitCode]
  | bool b => simp [respCheck, exitCode]
  | num n => simp [respCheck, exitCode]
  | str s => simp [respCheck, exitCode]
  | arr l => simp [respCheck, exitCode]
  | obj kvs =>
    constructor
    · intro h0
      by_cases hc : (!pyTruthy ((kvs.lookup "success").getD JVal.null) ||
          (kvs.lookup "receipt").isNone) = true
      · rw [respCheck, if_pos hc] at h0
        simp [exitCode] at h0
      · have hc2 := Bool.or_eq_false_iff.mp (eq_false_of_ne_true hc)
        refine ⟨kvs, rfl, by simpa using hc2.1, ?_⟩
        rcases hl : kvs.lookup "receipt" with _ | r
        · rw [hl] at hc2
          simp at hc2
        · rfl
    · rintro ⟨kvs2, heq, hs, hr⟩
      have hk : kvs = kvs2 := by injection heq
      subst hk
      rcases hl : kvs.lookup "receipt" with _ | r
      · rw [hl] at hr
        simp at hr
      · simp [respCheck, hs, hl, exitCode]

/-- C5 witness: a truthy non-boolean `success` together with a present
`receipt` key yields exit code 0. -/
theorem c5_response_shape_witness :
    exitCode (respCheck (JVal.obj [("success", JVal.num 1), ("receipt", JVal.str "ok")])) = 0 :=
  (c5_response_shape (JVal.obj [("success", JVal.num 1), ("receipt", JVal.str "ok")])).mpr
    ⟨[("success", JVal.num 1), ("receipt", JVal.str "ok")], rfl, rfl, rfl⟩

/-- C6: on the success path the receipt value is the only output: with a
resolvable environment and a stub transport whose parsed body is an object
with truthy `success` and a string `receipt`, the run returns exactly that
receipt string as its single stdout line and exits with code 0. -/
theorem c6_success_output (env : String → Option String) (now raw s : String)
    (v : EnvValues) (kvs : List (String × JVal))
    (henv : resolveEnv env = Except.ok v)
    (hs : pyTruthy ((kvs.lookup "success").getD JVal.null) = true)
    (hr : kvs.lookup "receipt" = some (JVal.str s)) :
    runMain env now (fun _ => TransportResult.ok raw) (fun _ => some (JVal.obj kvs)) =
      RunResult.success s
    ∧ stdoutLines (runMain env now (fun _ => TransportResult.ok raw)
        (fun _ => some (JVal.obj kvs))) = [s]
    ∧ exitCode (runMain env now (fun _ => TransportResult.ok raw)
        (fun _ => some (JVal.obj kvs))) = 0 := by
  have hmain : runMain env now (fun _ => TransportResult.ok raw)
      (fun _ => some (JVal.obj kvs)) = RunResult.success s := by
    simp [runMain, henv, handleTransport, validatePhase, respCheck, hs, hr, pyStr]
  exact ⟨hmain, by rw [hmain]; rfl, by rw [hmain]; rfl⟩

/-- C6 witness: with the spec's stub response the run prints `abc-123` and
exits 0. -/
theorem c6_success_output_witness :
    runMain (fun _ => some "x") "t" (fun _ => TransportResult.ok "raw")
      (fun _ => some (JVal.obj [("success", JVal.bool true), ("receipt", JVal.str "abc-123")])) =
      RunResult.success "abc-123" :=
  (c6_success_output (fun _ => some "x") "t" "raw" "abc-123" ⟨"x", "x", "x", "x", "x", "x"⟩
    [("success", JVal.bool true), ("receipt", JVal.str "abc-123")] rfl rfl rfl).1

/-- C7: a non-JSON response body aborts with a message carrying the raw body;
a parsed object with an absent-or-falsy `success` (regardless of `receipt`)
or an absent `receipt` key aborts with a message carrying the full parsed
object; both are exit code 1. -/
theorem c7_validation_failures (raw : String) (kvs : List (String × JVal))
    (h : pyTruthy ((kvs.lookup "success").getD JVal.null) = false ∨
        kvs.lookup "receipt" = none) :
    validatePhase raw none = RunResult.failure ("Non-JSON response from B12: " ++ raw)
    ∧ exitCode (validatePhase raw none) = 1
    ∧ respCheck (JVal.obj kvs) =
        RunResult.failure ("Unexpected response from B12: " ++ pyRepr (JVal.obj kvs))
    ∧ exitCode (respCheck (JVal.obj kvs)) = 1 := by
  have hcond : (!pyTruthy ((kvs.lookup "success").getD JVal.null) ||
      (kvs.lookup "receipt").isNone) = true := by
    rcases h with h | h
    · simp [h]
    · simp [h]
  have hrc : respCheck (JVal.obj kvs) =
      RunResult.failure ("Unexpected response from B12: " ++ pyRepr (JVal.obj kvs)) := by
    simp [respCheck, hcond]
  exact ⟨rfl, rfl, hrc, by rw [hrc]; rfl⟩

/-- C7 witness: a response with a `receipt` but no `success` field is
rejected with the parsed object in the message. -/
theorem c7_validation_failures_witness :
    respCheck (JVal.obj [("receipt", JVal.str "x")]) =
      RunResult.failure
        ("Unexpected response from B12: " ++ pyRepr (JVal.obj [("receipt", JVal.str "x")])) :=
  (c7_validation_failures "oops" [("receipt", JVal.str "x")] (Or.inl rfl)).2.2.1

/-- C8: an HTTP error response aborts the run with exit code 1 and a message
that contains both the numeric status code and the error body text. -/
theorem c8_http_error (code : Nat) (bodyText : String) (env : String → Option String)
    (v : EnvValues) (henv : resolveEnv env = Except.ok v) :
    handleTransport (TransportResult.httpError code bodyText) =
      Except.error ("HTTP " ++ toString code ++ " error from B12: " ++ bodyText)
    ∧ (∀ now parse,
        runMain env now (fun _ => TransportResult.httpError code bodyText) parse =
          RunResult.failure ("HTTP " ++ toString code ++ " error from B12: " ++ bodyText)
        ∧ exitCode (runMain env now (fun _ => TransportResult.httpError code bodyText) parse) = 1)
    ∧ (∃ a b, "HTTP " ++ toString code ++ " error from B12: " ++ bodyText =
        a ++ toString code ++ b)
    ∧ (∃ a b, "HTTP " ++ toString code ++ " error from B12: " ++ bodyText =
        a ++ bodyText ++ b) := by
  refine ⟨rfl, ?_, ?_, ?_⟩
  · intro now parse
    have hm : runMain env now (fun _ => TransportResult.httpError code bodyText) parse =
        RunResult.failure ("HTTP " ++ toString code ++ " error from B12: " ++ bodyText) := by
      simp [runMain, henv, handleTransport]
    exact ⟨hm, by rw [hm]; rfl⟩
  · exact ⟨"HTTP ", " error from B12: " ++ bodyText, by rw [String.append_assoc]⟩
  · exact ⟨"HTTP " ++ toString code ++ " error from B12: ", "", by rw [String.append_empty]⟩

/-- C8 witness: HTTP 500 with body `server error` aborts with the documented
message. -/
theorem c8_http_error_witness :
    handleTransport (TransportResult.httpError 500 "server error") =
      Except.error ("HTTP " ++ toString 500 ++ " error from B12: " ++ "server error") :=
  (c8_http_error 500 "server error" (fun _ => some "x") ⟨"x", "x", "x", "x", "x", "x"⟩ rfl).1

/-- C9: the derived links are plain string concatenations with no URL
validation, and at the spec's example inputs they equal the expected links
exactly. -/
theorem c9_derived_links (now name email resume server repo run_id : String) :
    (buildPayload now ⟨name, email, resume, server, repo, run_id⟩).repository_link =
      server ++ "/" ++ repo
    ∧ (buildPayload now ⟨name, email, resume, server, repo, run_id⟩).action_run_link =
      server ++ "/" ++ repo ++ "/actions/runs/" ++ run_id
    ∧ (buildPayload now
        ⟨name, email, resume, "https://github.com", "acme/widget", "12345"⟩).repository_link =
      "https://github.com/acme/widget"
    ∧ (buildPayload now
        ⟨name, email, resume, "https://github.com", "acme/widget", "12345"⟩).action_run_link =
      "https://github.com/acme/widget/actions/runs/12345" :=
  ⟨rfl, rfl, rfl, rfl⟩

/-- C10: the fallback signing secret applies only when `B12_SIGNING_SECRET`
is entirely unset; a set value — even empty or whitespace-only — is used
as-is, untrimmed and unchecked, so an empty secret gives the empty key. -/
theorem c10_secret_untrimmed (env : String → Option String) :
    (env "B12_SIGNING_SECRET" = none →
      signingKey env = utf8Encode "hello-there-from-b12")
    ∧ (∀ s, env "B12_SIGNING_SECRET" = some s → signingSecret env = s)
    ∧ (∀ s, env "B12_SIGNING_SECRET" = some s → signingKey env = utf8Encode s)
    ∧ utf8Encode "" = [] := by
  refine ⟨?_, ?_, ?_, rfl⟩
  · intro h
    simp [signingKey, signingSecret, h]
  · intro s h
    simp [signingSecret, h]
  · intro s h
    simp [signingKey, signingSecret, h]

/-- C10 witness: a secret set to the empty string yields the empty HMAC key,
not the fallback. -/
theorem c10_secret_untrimmed_witness :
    signingKey (fun _ => some "") = utf8Encode "" :=
  (c10_secret_untrimmed (fun _ => some "")).2.2.1 "" rfl
